import Mathlib

/-!
Verification development for the angular-maps repository (Bing Maps provider
abstraction). The definitions below are a shallow embedding of the three
source files:

* src/src/models/marker.ts        — the static marker icon factory and its cache
* src/models/binglayer.ts         — the BingLayer wrapper over a native layer
* src/services/bingmapservice.ts  — the map service lifecycle and marker creation

JS numbers are modelled as rationals; nullable fields as Option; the opaque
browser rendering APIs (canvas toDataURL, text metrics, image natural sizes,
floating-point trigonometry) are modelled symbolically: a rendered image is
represented by a constructor carrying exactly the inputs the source feeds into
the rendering call, and browser-supplied measurements are drawn from an
explicit environment record.
-/

set_option maxHeartbeats 1000000

/-- JS numbers, modelled as rationals. -/
abbrev JSNum := Rat

/-- Embeds the ISize interface: a pixel width and height. -/
structure ISize where
  width : JSNum
  height : JSNum
deriving DecidableEq

/-- Embeds the IPoint interface: an x and y coordinate. -/
structure IPoint where
  x : JSNum
  y : JSNum
deriving DecidableEq

/-- Modelled from the spec: src/models/markertypeid.ts is not under src/. The
six members used by Marker.CreateMarker are listed as constructors; `other`
stands for any further member of the TS numeric enum, carrying its numeric
value (used in the error message of the dispatcher). -/
inductive MarkerTypeId where
  | CanvasMarker
  | DynmaicCircleMarker
  | FontMarker
  | RotatedImageMarker
  | RoundedImageMarker
  | ScaledImageMarker
  | other (code : Nat)
deriving DecidableEq

/-- A rendered marker image string. Browser rendering (canvas toDataURL, SVG
markup) is opaque to this embedding, so each image is represented symbolically
by a constructor carrying exactly the data the source feeds into the rendering
calls; `emptyString` is the literal empty string returned by the image-based
marker factories. -/
inductive IconString where
  /-- Canvas arrow rendered by CreateCanvasMarker: canvas dimensions, the
  (truthy) rotation, fillStyle, the optional moveTo offset and the path. -/
  | canvasDataURL (width height : JSNum) (rotation : Option JSNum)
      (fillStyle : String) (drawingOffset : Option IPoint) (points : List IPoint)
  /-- SVG circle markup built by CreateDynmaicCircleMarker: everything in the
  joined string is a function of size.width, strokeWidth and color. -/
  | svgCircleString (width strokeWidth : JSNum) (color : String)
  /-- Canvas text rendered by CreateFontBasedMarker: font name and size, the
  (string-coerced) text, the measured canvas width, rotation and fillStyle. -/
  | fontDataURL (fontName : String) (fontSize : JSNum) (text : String)
      (width : JSNum) (rotation : Option JSNum) (fillStyle : String)
  /-- Canvas produced in the rotated image onload handler: the source image
  url, the drawn image dimensions and the rotation. -/
  | rotatedDataURL (url : String) (imgWidth imgHeight : JSNum) (rotation : JSNum)
  /-- Canvas produced in the rounded image onload handler: the url, the square
  canvas side (size.width) and the drawing offset. -/
  | roundedDataURL (url : String) (width : JSNum) (offset : IPoint)
  /-- Canvas produced in the scaled image onload handler: the url, the natural
  image dimensions and the scale factor. -/
  | scaledDataURL (url : String) (natWidth natHeight scale : JSNum)
  /-- The empty string literal. -/
  | emptyString
deriving DecidableEq

/-- Embeds the IMarkerIconInfo interface (the fields read by marker.ts).
Nullable/absent fields are Option; the callback function is modelled by
whether one was supplied, with its invocations recorded in the call outcome. -/
structure IMarkerIconInfo where
  markerType : MarkerTypeId
  id : Option String := none
  size : Option ISize := none
  color : Option String := none
  rotation : Option JSNum := none
  drawingOffset : Option IPoint := none
  points : Option (List IPoint) := none
  strokeWidth : Option JSNum := none
  fontName : Option String := none
  fontSize : Option JSNum := none
  text : Option String := none
  url : Option String := none
  scale : Option JSNum := none
  callback : Bool := false
deriving DecidableEq

/-- Embeds the IMarkerIconCacheEntry interface of marker.ts. -/
structure IMarkerIconCacheEntry where
  markerIconString : IconString
  markerSize : ISize
deriving DecidableEq

/-- The Marker.MarkerCache static Map, modelled as an association list with JS
Map semantics (set replaces an existing binding in place, otherwise appends). -/
abbrev MarkerCache := List (String × IMarkerIconCacheEntry)

/-- JS Map.prototype.has. -/
def cacheHas (c : MarkerCache) (k : String) : Bool :=
  c.any (fun e => e.1 = k)

/-- JS Map.prototype.get (none models undefined). -/
def cacheGet (c : MarkerCache) (k : String) : Option IMarkerIconCacheEntry :=
  (c.find? (fun e => e.1 = k)).map (fun e => e.2)

/-- JS Map.prototype.set: replaces the binding in place when the key is
present, otherwise appends it in insertion order. -/
def cacheSet (c : MarkerCache) (k : String) (v : IMarkerIconCacheEntry) : MarkerCache :=
  if cacheHas c k then c.map (fun e => if e.1 = k then (k, v) else e)
  else c ++ [(k, v)]

/-- Embeds the guarded store pattern of marker.ts:
if (iconInfo.id != null) Marker.MarkerCache.set(iconInfo.id, entry). -/
def cacheStore (c : MarkerCache) (id : Option String) (v : IMarkerIconCacheEntry) : MarkerCache :=
  match id with
  | some k => cacheSet c k v
  | none => c

/-- Embeds the cache-hit test and read of marker.ts:
iconInfo.id != null && Marker.MarkerCache.has(iconInfo.id), followed by get. -/
def cacheLookup (c : MarkerCache) (id : Option String) : Option IMarkerIconCacheEntry :=
  match id with
  | some k => cacheGet c k
  | none => none

/-- The browser capabilities marker.ts delegates to. Each field models an
opaque host API: document presence, ctx.measureText (as a function of the font
size, font name and drawn text), the natural dimensions an Image acquires from
a url, and the rotated bounding-box computation of the rotated image onload
handler (Math.cos/Math.sin/Math.ceil on doubles, opaque to the rational
embedding). -/
structure BrowserEnv where
  docPresent : Bool
  measureTextWidth : JSNum → String → String → JSNum
  naturalWidth : String → JSNum
  naturalHeight : String → JSNum
  rotatedCanvasSize : JSNum → JSNum → JSNum → ISize

/-- JS string-or-default idiom (s || d): null/undefined and the empty string
are falsy. -/
def jsOrString (v : Option String) (d : String) : String :=
  match v with
  | some s => if s = "" then d else s
  | none => d

/-- JS number-or-default idiom (x || d): null/undefined and 0 are falsy. -/
def jsOrNum (v : Option JSNum) (d : JSNum) : JSNum :=
  match v with
  | some x => if x = 0 then d else x
  | none => d

/-- JS truthiness of a nullable number (if (iconInfo.rotation) ...): null,
undefined and 0 are falsy. -/
def jsTruthyNum (v : Option JSNum) : Bool :=
  match v with
  | some x => x ≠ 0
  | none => false

/-- The rotation actually applied by the canvas factories, which guard the
rotate calls with JS truthiness (so a rotation of 0 draws unrotated). -/
def effRotation (v : Option JSNum) : Option JSNum :=
  if jsTruthyNum v then v else none

/-- JS string coercion of a nullable string (a null text is drawn and measured
as the string "null"). -/
def jsCoerceString (v : Option String) : String :=
  match v with
  | some s => s
  | none => "null"

/-- Which image-based factory installed a deferred onload handler. -/
inductive ImgMarkerKind where
  | rotated
  | rounded
  | scaled
deriving DecidableEq

/-- A deferred image.onload handler installed by one of the image-based marker
factories, capturing the iconInfo of the originating call. -/
structure PendingLoad where
  kind : ImgMarkerKind
  info : IMarkerIconInfo
deriving DecidableEq

instance : DecidableEq (Except String IconString) := fun a b =>
  match a, b with
  | .ok x, .ok y => decidable_of_iff (x = y) (by simp)
  | .error x, .error y => decidable_of_iff (x = y) (by simp)
  | .ok _, .error _ => isFalse (by simp)
  | .error _, .ok _ => isFalse (by simp)

/-- The outcome of one Marker.Create* call: the returned string or the thrown
Error message, the iconInfo after the call (the factories mutate its size
field), the cache after the synchronous part of the call, the onload handlers
installed by the call, and the callback invocations made synchronously (each
records the delivered icon string and the iconInfo passed alongside it). -/
structure CallOutcome where
  result : Except String IconString
  infoAfter : IMarkerIconInfo
  cacheAfter : MarkerCache
  pendingNew : List PendingLoad
  callbackCalls : List (IconString × IMarkerIconInfo)
deriving DecidableEq

/-- An outcome that throws: the Error message, with no state change. -/
def throwOutcome (msg : String) (info : IMarkerIconInfo) (cache : MarkerCache) : CallOutcome :=
  ⟨.error msg, info, cache, [], []⟩

namespace Marker

/-- Embeds Marker.CreateCanvasMarker (marker.ts lines 226-261): document and
required-field validation, the cache-hit short circuit that adopts the cached
size and returns the cached string, and otherwise canvas rendering from the
supplied fields followed by the guarded cache store. -/
def CreateCanvasMarker (env : BrowserEnv) (cache : MarkerCache) (info : IMarkerIconInfo) : CallOutcome :=
  if env.docPresent = false then
    throwOutcome "Document context (window.document) is required for canvas markers." info cache
  else
    match info.size, info.points with
    | some sz, some pts =>
      match cacheLookup cache info.id with
      | some mi =>
        ⟨.ok mi.markerIconString, { info with size := some mi.markerSize }, cache, [], []⟩
      | none =>
        let s : IconString := .canvasDataURL sz.width sz.height (effRotation info.rotation)
          (jsOrString info.color "red") info.drawingOffset pts
        ⟨.ok s, info, cacheStore cache info.id ⟨s, sz⟩, [], []⟩
    | _, _ =>
      throwOutcome "IMarkerIconInfo.size, and IMarkerIConInfo.points are required for canvas markers." info cache

/-- Embeds Marker.CreateDynmaicCircleMarker (marker.ts lines 273-307): the SVG
circle markup is a function of size.width, the defaulted strokeWidth and the
defaulted color. -/
def CreateDynmaicCircleMarker (env : BrowserEnv) (cache : MarkerCache) (info : IMarkerIconInfo) : CallOutcome :=
  if env.docPresent = false then
    throwOutcome "Document context (window.document) is required for dynamic circle markers." info cache
  else
    match info.size with
    | some sz =>
      match cacheLookup cache info.id with
      | some mi =>
        ⟨.ok mi.markerIconString, { info with size := some mi.markerSize }, cache, [], []⟩
      | none =>
        let s : IconString := .svgCircleString sz.width (jsOrNum info.strokeWidth 0)
          (jsOrString info.color "red")
        ⟨.ok s, info, cacheStore cache info.id ⟨s, sz⟩, [], []⟩
    | none =>
      throwOutcome "IMarkerIconInfo.size is required for dynamic circle markers." info cache

/-- Embeds Marker.CreateFontBasedMarker (marker.ts lines 319-357). Note that
the validation checks fontName and fontSize only, although the thrown message
also names text; a null text is string-coerced by the canvas calls. The
iconInfo size is overwritten with the measured canvas dimensions before the
guarded cache store. -/
def CreateFontBasedMarker (env : BrowserEnv) (cache : MarkerCache) (info : IMarkerIconInfo) : CallOutcome :=
  if env.docPresent = false then
    throwOutcome "Document context (window.document) is required for font based markers" info cache
  else
    match info.fontName, info.fontSize with
    | some fn, some fs =>
      match cacheLookup cache info.id with
      | some mi =>
        ⟨.ok mi.markerIconString, { info with size := some mi.markerSize }, cache, [], []⟩
      | none =>
        let textS := jsCoerceString info.text
        let w := env.measureTextWidth fs fn textS
        let s : IconString := .fontDataURL fn fs textS w (effRotation info.rotation)
          (jsOrString info.color "red")
        let newSize : ISize := ⟨w, fs⟩
        ⟨.ok s, { info with size := some newSize },
          cacheStore cache info.id ⟨s, newSize⟩, [], []⟩
    | _, _ =>
      throwOutcome "IMarkerIconInfo.fontName, IMarkerIconInfo.fontSize and IMarkerIConInfo.text are required for font based markers." info cache

/-- Embeds Marker.CreateRotatedImageMarker (marker.ts lines 369-410): on a
cache hit, the cached size is adopted, the cached string is passed to the
callback and the empty string is returned; on a miss, an onload handler is
installed and the empty string is returned (the rendering and cache store
happen when the handler fires, see runOnload). -/
def CreateRotatedImageMarker (env : BrowserEnv) (cache : MarkerCache) (info : IMarkerIconInfo) : CallOutcome :=
  if env.docPresent = false then
    throwOutcome "Document context (window.document) is required for rotated image markers" info cache
  else if info.rotation = none ∨ info.url = none ∨ info.callback = false then
    throwOutcome "IMarkerIconInfo.rotation, IMarkerIconInfo.url and IMarkerIConInfo.callback are required for rotated image markers." info cache
  else
    match cacheLookup cache info.id with
    | some mi =>
      let info2 := { info with size := some mi.markerSize }
      ⟨.ok .emptyString, info2, cache, [], [(mi.markerIconString, info2)]⟩
    | none =>
      ⟨.ok .emptyString, info, cache, [⟨.rotated, info⟩], []⟩

/-- Embeds Marker.CreateRoundedImageMarker (marker.ts lines 422-458), with the
same cache-hit and deferred onload structure as the rotated image factory. -/
def CreateRoundedImageMarker (env : BrowserEnv) (cache : MarkerCache) (info : IMarkerIconInfo) : CallOutcome :=
  if env.docPresent = false then
    throwOutcome "Document context (window.document) is required for rounded image markers" info cache
  else if info.size = none ∨ info.url = none ∨ info.callback = false then
    throwOutcome "IMarkerIconInfo.size, IMarkerIconInfo.url and IMarkerIConInfo.callback are required for rounded image markers." info cache
  else
    match cacheLookup cache info.id with
    | some mi =>
      let info2 := { info with size := some mi.markerSize }
      ⟨.ok .emptyString, info2, cache, [], [(mi.markerIconString, info2)]⟩
    | none =>
      ⟨.ok .emptyString, info, cache, [⟨.rounded, info⟩], []⟩

/-- Embeds Marker.CreateScaledImageMarker (marker.ts lines 470-499), with the
same cache-hit and deferred onload structure as the rotated image factory. -/
def CreateScaledImageMarker (env : BrowserEnv) (cache : MarkerCache) (info : IMarkerIconInfo) : CallOutcome :=
  if env.docPresent = false then
    throwOutcome "Document context (window.document) is required for scaled image markers" info cache
  else if info.scale = none ∨ info.url = none ∨ info.callback = false then
    throwOutcome "IMarkerIconInfo.scale, IMarkerIconInfo.url and IMarkerIConInfo.callback are required for scaled image markers." info cache
  else
    match cacheLookup cache info.id with
    | some mi =>
      let info2 := { info with size := some mi.markerSize }
      ⟨.ok .emptyString, info2, cache, [], [(mi.markerIconString, info2)]⟩
    | none =>
      ⟨.ok .emptyString, info, cache, [⟨.scaled, info⟩], []⟩

/-- Embeds Marker.CreateMarker (marker.ts lines 204-214): the switch over the
marker type, falling through to the Unsupported error. -/
def CreateMarker (env : BrowserEnv) (cache : MarkerCache) (info : IMarkerIconInfo) : CallOutcome :=
  match info.markerType with
  | .CanvasMarker => CreateCanvasMarker env cache info
  | .DynmaicCircleMarker => CreateDynmaicCircleMarker env cache info
  | .FontMarker => CreateFontBasedMarker env cache info
  | .RotatedImageMarker => CreateRotatedImageMarker env cache info
  | .RoundedImageMarker => CreateRoundedImageMarker env cache info
  | .ScaledImageMarker => CreateScaledImageMarker env cache info
  | .other code => throwOutcome ("Unsupported marker type: " ++ toString code) info cache

end Marker

/-- Embeds the body of the image.onload closures of marker.ts (lines 388-408,
439-456 and 484-497): renders the canvas for the captured iconInfo, overwrites
its size, performs the guarded cache store — unconditional in the key, the
closures re-check only that the id is non-null — and invokes the callback.
Returns the cache after the store together with the callback invocation. -/
def runOnload (env : BrowserEnv) (cache : MarkerCache) (p : PendingLoad) :
    MarkerCache × List (IconString × IMarkerIconInfo) :=
  match p.kind with
  | .rotated =>
    let url := jsCoerceString p.info.url
    let iw := match p.info.size with
      | some sz => sz.width
      | none => env.naturalWidth url
    let ih := match p.info.size with
      | some sz => sz.height
      | none => env.naturalHeight url
    let rot := (p.info.rotation).getD 0
    let box := env.rotatedCanvasSize iw ih rot
    let s : IconString := .rotatedDataURL url iw ih rot
    (cacheStore cache p.info.id ⟨s, box⟩, [(s, { p.info with size := some box })])
  | .rounded =>
    let url := jsCoerceString p.info.url
    let w := ((p.info.size).getD ⟨0, 0⟩).width
    let offset := (p.info.drawingOffset).getD ⟨0, 0⟩
    let s : IconString := .roundedDataURL url w offset
    let newSize : ISize := ⟨w, w⟩
    (cacheStore cache p.info.id ⟨s, newSize⟩, [(s, { p.info with size := some newSize })])
  | .scaled =>
    let url := jsCoerceString p.info.url
    let nw := env.naturalWidth url
    let nh := env.naturalHeight url
    let sc := (p.info.scale).getD 0
    let s : IconString := .scaledDataURL url nw nh sc
    let newSize : ISize := ⟨nw * sc, nh * sc⟩
    (cacheStore cache p.info.id ⟨s, newSize⟩, [(s, { p.info with size := some newSize })])

/-- The persistent state of the Marker class between calls: the static icon
cache plus the onload handlers installed but not yet fired by the browser
event loop. -/
structure MarkerState where
  cache : MarkerCache
  pending : List PendingLoad
deriving DecidableEq

/-- One event of the single-threaded event loop driving the Marker class:
either a synchronous Marker.CreateMarker call, or the browser firing the i-th
pending image.onload handler. -/
inductive MarkerOp where
  | create (info : IMarkerIconInfo)
  | fireLoad (i : Nat)

/-- One step of the event loop. -/
def markerStep (env : BrowserEnv) (st : MarkerState) (op : MarkerOp) : MarkerState :=
  match op with
  | .create info =>
    let o := Marker.CreateMarker env st.cache info
    ⟨o.cacheAfter, st.pending ++ o.pendingNew⟩
  | .fireLoad i =>
    match st.pending[i]? with
    | some p => ⟨(runOnload env st.cache p).1, st.pending.eraseIdx i⟩
    | none => st

/-- Runs a sequence of event-loop steps. -/
def markerRun (env : BrowserEnv) (st : MarkerState) : List MarkerOp → MarkerState
  | [] => st
  | op :: ops => markerRun env (markerStep env st op) ops

/-! JS integer and string conversions, used by binglayer.ts to translate the
provider-neutral numeric layer id to the native string id and back. These
model the builtins Number.prototype.toString and the Number() conversion on
the integer fragment exercised by the source. -/

/-- The character of a decimal digit. -/
def digitChar (d : Nat) : Char := Char.ofNat (48 + d)

/-- The decimal digit of a character. -/
def charDigit (c : Char) : Nat := c.toNat - 48

/-- The decimal digit characters of a natural number, most significant first. -/
def natChars (n : Nat) : List Char :=
  if n = 0 then ['0'] else ((Nat.digits 10 n).map digitChar).reverse

/-- Models JS Number.prototype.toString on an integer. -/
def jsIntToString (n : Int) : String :=
  if n < 0 then String.mk ('-' :: natChars n.natAbs) else String.mk (natChars n.toNat)

/-- The natural number denoted by a list of decimal digit characters. -/
def natOfChars (l : List Char) : Nat :=
  Nat.ofDigits 10 ((l.map charDigit).reverse)

/-- Models the JS Number() conversion on a list of characters: none models
NaN (a non-numeric string). -/
def jsCharsToNumber (l : List Char) : Option Int :=
  match l with
  | [] => none
  | c :: rest =>
    if c = '-' then
      if rest ≠ [] ∧ rest.all Char.isDigit then some (-(natOfChars rest : Int)) else none
    else
      if (c :: rest).all Char.isDigit then some (natOfChars (c :: rest) : Int) else none

/-- Models the JS Number() conversion on the integer fragment exercised by
binglayer.ts. -/
def jsStringToNumber (s : String) : Option Int :=
  jsCharsToNumber s.data

namespace BingLayer

/-- The native Microsoft.Maps.Layer handle wrapped by BingLayer: its string
id (read by getId, written by the id property), its visibility, and the
primitives it holds (abstract handles). -/
structure NativeLayer where
  id : String
  visible : Bool
  primitives : List Nat
deriving DecidableEq

/-- An entity passed to AddEntity/RemoveEntity. The parameters are typed
Marker|InfoWindow|any in the source, so property access is unchecked: the
correctly spelled NativePrimitve getter of the wrapper classes is one field,
and the misspelled NativePRimitive property read by RemoveEntity is another
(none models undefined; wrapper classes define only the former). -/
structure LayerEntity where
  NativePrimitve : Option Nat
  NativePRimitive : Option Nat
deriving DecidableEq

/-- Embeds BingLayer.AddEntity (binglayer.ts lines 73-75):
if (entity.NativePrimitve) this.layer.add(entity.NativePrimitve). -/
def AddEntity (l : NativeLayer) (e : LayerEntity) : NativeLayer :=
  match e.NativePrimitve with
  | some p => { l with primitives := l.primitives ++ [p] }
  | none => l

/-- Embeds BingLayer.RemoveEntity (binglayer.ts lines 119-121):
if (entity.NativePRimitive) this.layer.remove(entity.NativePrimitve) — note
the misspelled property in the guard, transcribed as written. -/
def RemoveEntity (l : NativeLayer) (e : LayerEntity) : NativeLayer :=
  match e.NativePRimitive with
  | some _ =>
    match e.NativePrimitve with
    | some p => { l with primitives := l.primitives.erase p }
    | none => l
  | none => l

/-- Embeds the ILayerOptions interface: the provider-neutral numeric id. -/
structure ILayerOptions where
  id : Int
deriving DecidableEq

/-- The ILayerOptions object returned by GetOptions: its id field is the
result of Number(...), so none models NaN. -/
structure ILayerOptionsRead where
  id : Option Int
deriving DecidableEq

/-- Embeds BingLayer.SetOptions (binglayer.ts lines 144-146):
this.layer.id = options.id.toString(). -/
def SetOptions (l : NativeLayer) (o : ILayerOptions) : NativeLayer :=
  { l with id := jsIntToString o.id }

/-- Embeds BingLayer.GetOptions (binglayer.ts lines 94-99):
returns an options object with id: Number(this.layer.getId()). -/
def GetOptions (l : NativeLayer) : ILayerOptionsRead :=
  ⟨jsStringToNumber l.id⟩

end BingLayer

namespace BingMapService

/-- A JS Promise held in the map field of the service, identified by a serial
number (so that a replacement promise can be told apart from the one it
replaces) together with its resolution state: none while unresolved, some h
once the map resolver has been called with the native map handle h. -/
structure PromiseRef where
  pid : Nat
  resolvedTo : Option Nat
deriving DecidableEq

/-- The state of a BingMapService instance: the map promise field (an Option
because DisposeMap compares it against null), the stored native map instance
handle, serial counters for fresh promises and fresh native maps, and the
handles on which dispose() has been invoked. -/
structure ServiceState where
  map : Option PromiseRef
  mapInstance : Option Nat
  nextPromiseId : Nat
  nextMapHandle : Nat
  disposed : List Nat
deriving DecidableEq

/-- Embeds the BingMapService constructor (bingmapservice.ts lines 79-82):
the map field holds a fresh unresolved promise and no instance exists. -/
def serviceInit : ServiceState :=
  ⟨some ⟨0, none⟩, none, 1, 0, []⟩

/-- Embeds BingMapService.DisposeMap (bingmapservice.ts lines 229-236): an
early return when both the promise field and the instance are null; when an
instance exists, it is disposed, the stored instance is nulled and the map
promise is replaced by a fresh unresolved promise; otherwise nothing
happens. -/
def DisposeMap (st : ServiceState) : ServiceState :=
  if st.map = none ∧ st.mapInstance = none then st
  else
    match st.mapInstance with
    | some h =>
      { st with
        mapInstance := none,
        map := some ⟨st.nextPromiseId, none⟩,
        nextPromiseId := st.nextPromiseId + 1,
        disposed := st.disposed ++ [h] }
    | none => st

/-- Embeds the continuation BingMapService.CreateMap runs once the loader has
loaded (bingmapservice.ts lines 160-168): dispose any existing instance,
create a fresh native map, store it and resolve the current map promise with
it. -/
def CreateMapBody (st : ServiceState) : ServiceState :=
  let st1 := if st.mapInstance ≠ none then DisposeMap st else st
  let h := st1.nextMapHandle
  { st1 with
    mapInstance := some h,
    nextMapHandle := h + 1,
    map := st1.map.map (fun p => ⟨p.pid, some h⟩) }

/-- Well-formedness of a service state: any promise stored in the map field
was allocated below the fresh-promise counter (true of serviceInit and
preserved by every operation); this is what makes a replacement promise
provably fresh. -/
def serviceWF (st : ServiceState) : Prop :=
  ∀ p, st.map = some p → p.pid < st.nextPromiseId

end BingMapService

/-- The Microsoft.Maps.IPushpinOptions fields written by
BingMapService.CreateMarker: the icon, the anchor and the text offset. -/
structure IPushpinOptions where
  icon : Option IconString
  anchor : Option IPoint
  textOffset : Option IPoint
deriving DecidableEq

/-- Embeds the map-ready continuation of BingMapService.CreateMarker
(bingmapservice.ts lines 180-205) from the point where the translated pushpin
options o are available (BingConversions.TranslateMarkerOptions is not under
src/, so its output is taken as the argument): when o has no icon, the default
48x48 canvas arrow iconInfo is built, rendered through Marker.CreateMarker,
and the anchor and text offset are derived from the iconInfo size; an
exception from the marker factory propagates. Returns the final pushpin
options together with the icon cache after the call. -/
def CreateMarkerBody (env : BrowserEnv) (cache : MarkerCache) (o : IPushpinOptions) :
    Except String (IPushpinOptions × MarkerCache) :=
  if o.icon = none then
    let iconInfo : IMarkerIconInfo := {
      markerType := .CanvasMarker,
      rotation := some 45,
      drawingOffset := some ⟨24, 0⟩,
      points := some [⟨10, 40⟩, ⟨24, 30⟩, ⟨38, 40⟩, ⟨24, 0⟩],
      color := some "#f00",
      size := some ⟨48, 48⟩ }
    let r := Marker.CreateMarker env cache iconInfo
    match r.result with
    | .error e => .error e
    | .ok s =>
      let sz := (r.infoAfter.size).getD ⟨0, 0⟩
      .ok ({ o with
        icon := some s,
        anchor := some ⟨sz.width * 0.75, sz.height * 0.25⟩,
        textOffset := some ⟨0, sz.height * 0.66⟩ }, r.cacheAfter)
  else
    .ok (o, cache)

/-! Shared concrete instances and predicates used by the theorems below. -/

/-- A concrete browser environment for witnesses and counterexamples: the
document is present, every text measures 1 pixel wide, every image has
natural size 10x10, and the rotated bounding box is the original size. -/
def env0 : BrowserEnv :=
  ⟨true, fun _ _ _ => 1, fun _ => 10, fun _ => 10, fun w h _ => ⟨w, h⟩⟩

/-- Transcribes the required-field throw guards of the six factories
(marker.ts lines 228, 275, 321, 371, 424 and 472): a call with these fields
present does not throw. Note that the font guard checks fontName and fontSize
only — the source does not check text, although its message names it. -/
def requiredOk (info : IMarkerIconInfo) : Bool :=
  match info.markerType with
  | .CanvasMarker => info.size.isSome && info.points.isSome
  | .DynmaicCircleMarker => info.size.isSome
  | .FontMarker => info.fontName.isSome && info.fontSize.isSome
  | .RotatedImageMarker => info.rotation.isSome && info.url.isSome && info.callback
  | .RoundedImageMarker => info.size.isSome && info.url.isSome && info.callback
  | .ScaledImageMarker => info.scale.isSome && info.url.isSome && info.callback
  | .other _ => false

/-- The image a Create* call hands to its caller: the returned string, except
that the image-based factories deliver the image through the callback and
return the empty string. -/
def delivered (o : CallOutcome) : Except String IconString :=
  match o.result, o.callbackCalls with
  | .ok _, (s, _) :: _ => .ok s
  | r, _ => r

/-- The iconInfo exhibiting the font-marker validation gap: fontName and
fontSize supplied, text absent. -/
def fontBugInfo : IMarkerIconInfo :=
  { markerType := .FontMarker, fontName := some "Arial", fontSize := some 14, text := none }

/-- C4: the claim says a font based marker call throws when text is missing,
and the thrown message of the source names text as required, but the guard at
marker.ts line 321 checks only fontName and fontSize: with text null the call
does not throw — it string-coerces the null text and renders the word
"null". -/
theorem createFontBasedMarker_missing_text_not_thrown :
    (Marker.CreateMarker env0 [] fontBugInfo).result =
      .ok (.fontDataURL "Arial" 14 "null" 1 none "red") := by
  rfl

/-- An entity as produced by the wrapper classes (BingMarker, BingInfoWindow):
it exposes the NativePrimitve getter, and has no property under the misspelled
name NativePRimitive that RemoveEntity reads. -/
def wrappedEntity : BingLayer.LayerEntity := ⟨some 7, none⟩

/-- A native layer holding the primitive of wrappedEntity. -/
def layerWith7 : BingLayer.NativeLayer := ⟨"1", true, [7]⟩

/-- C5: AddEntity does forward the native primitive to the native layer, but
RemoveEntity never removes anything: its guard reads the misspelled property
entity.NativePRimitive, which is undefined on every wrapped entity, so the
layer is left unchanged even though the entity holds the primitive the layer
contains. -/
theorem bingLayer_removeEntity_never_removes :
    BingLayer.AddEntity ⟨"1", true, []⟩ wrappedEntity = layerWith7 ∧
    BingLayer.RemoveEntity layerWith7 wrappedEntity = layerWith7 := by
  exact ⟨rfl, rfl⟩

/-- C8: Marker.CreateMarker delegates to the matching factory for each of the
six supported marker types, and for every other marker type value it throws an
Error whose message names the unsupported marker type. -/
theorem createMarker_dispatch (env : BrowserEnv) (cache : MarkerCache) (info : IMarkerIconInfo) :
    (info.markerType = .CanvasMarker →
      Marker.CreateMarker env cache info = Marker.CreateCanvasMarker env cache info) ∧
    (info.markerType = .DynmaicCircleMarker →
      Marker.CreateMarker env cache info = Marker.CreateDynmaicCircleMarker env cache info) ∧
    (info.markerType = .FontMarker →
      Marker.CreateMarker env cache info = Marker.CreateFontBasedMarker env cache info) ∧
    (info.markerType = .RotatedImageMarker →
      Marker.CreateMarker env cache info = Marker.CreateRotatedImageMarker env cache info) ∧
    (info.markerType = .RoundedImageMarker →
      Marker.CreateMarker env cache info = Marker.CreateRoundedImageMarker env cache info) ∧
    (info.markerType = .ScaledImageMarker →
      Marker.CreateMarker env cache info = Marker.CreateScaledImageMarker env cache info) ∧
    (∀ code, info.markerType = .other code →
      Marker.CreateMarker env cache info =
        throwOutcome ("Unsupported marker type: " ++ toString code) info cache) := by
  refine ⟨?_, ?_, ?_, ?_, ?_, ?_, ?_⟩ <;>
    first
      | (intro h; simp [Marker.CreateMarker, h])
      | (intro code h; simp [Marker.CreateMarker, h])

/-- C8 witness: the dispatcher at a concrete unsupported marker type value. -/
theorem createMarker_dispatch_witness :
    Marker.CreateMarker env0 [] { markerType := .other 99 } =
      throwOutcome "Unsupported marker type: 99" { markerType := .other 99 } [] := by
  have h := (createMarker_dispatch env0 [] { markerType := .other 99 }).2.2.2.2.2.2 99 rfl
  exact h.trans (by rfl)

/-! Cache-hit behavior of the six factories (shared lemmas). -/

theorem canvasMarker_hit_eq (env : BrowserEnv) (cache : MarkerCache)
    (info : IMarkerIconInfo) (mi : IMarkerIconCacheEntry)
    (hdoc : env.docPresent = true)
    (hmi : cacheLookup cache info.id = some mi)
    (hsz : info.size.isSome = true) (hpts : info.points.isSome = true) :
    Marker.CreateCanvasMarker env cache info =
      ⟨.ok mi.markerIconString, { info with size := some mi.markerSize }, cache, [], []⟩ := by
  obtain ⟨sz, hsz⟩ := Option.isSome_iff_exists.mp hsz
  obtain ⟨pts, hpts⟩ := Option.isSome_iff_exists.mp hpts
  simp [Marker.CreateCanvasMarker, hdoc, hsz, hpts, hmi]

theorem circleMarker_hit_eq (env : BrowserEnv) (cache : MarkerCache)
    (info : IMarkerIconInfo) (mi : IMarkerIconCacheEntry)
    (hdoc : env.docPresent = true)
    (hmi : cacheLookup cache info.id = some mi)
    (hsz : info.size.isSome = true) :
    Marker.CreateDynmaicCircleMarker env cache info =
      ⟨.ok mi.markerIconString, { info with size := some mi.markerSize }, cache, [], []⟩ := by
  obtain ⟨sz, hsz⟩ := Option.isSome_iff_exists.mp hsz
  simp [Marker.CreateDynmaicCircleMarker, hdoc, hsz, hmi]

theorem fontMarker_hit_eq (env : BrowserEnv) (cache : MarkerCache)
    (info : IMarkerIconInfo) (mi : IMarkerIconCacheEntry)
    (hdoc : env.docPresent = true)
    (hmi : cacheLookup cache info.id = some mi)
    (hfn : info.fontName.isSome = true) (hfs : info.fontSize.isSome = true) :
    Marker.CreateFontBasedMarker env cache info =
      ⟨.ok mi.markerIconString, { info with size := some mi.markerSize }, cache, [], []⟩ := by
  obtain ⟨fn, hfn⟩ := Option.isSome_iff_exists.mp hfn
  obtain ⟨fs, hfs⟩ := Option.isSome_iff_exists.mp hfs
  simp [Marker.CreateFontBasedMarker, hdoc, hfn, hfs, hmi]

theorem rotatedMarker_hit_eq (env : BrowserEnv) (cache : MarkerCache)
    (info : IMarkerIconInfo) (mi : IMarkerIconCacheEntry)
    (hdoc : env.docPresent = true)
    (hmi : cacheLookup cache info.id = some mi)
    (hrot : info.rotation.isSome = true) (hurl : info.url.isSome = true)
    (hcb : info.callback = true) :
    Marker.CreateRotatedImageMarker env cache info =
      ⟨.ok .emptyString, { info with size := some mi.markerSize }, cache, [],
        [(mi.markerIconString, { info with size := some mi.markerSize })]⟩ := by
  obtain ⟨r, hr⟩ := Option.isSome_iff_exists.mp hrot
  obtain ⟨u, hu⟩ := Option.isSome_iff_exists.mp hurl
  simp [Marker.CreateRotatedImageMarker, hdoc, hr, hu, hcb, hmi]

theorem roundedMarker_hit_eq (env : BrowserEnv) (cache : MarkerCache)
    (info : IMarkerIconInfo) (mi : IMarkerIconCacheEntry)
    (hdoc : env.docPresent = true)
    (hmi : cacheLookup cache info.id = some mi)
    (hsz : info.size.isSome = true) (hurl : info.url.isSome = true)
    (hcb : info.callback = true) :
    Marker.CreateRoundedImageMarker env cache info =
      ⟨.ok .emptyString, { info with size := some mi.markerSize }, cache, [],
        [(mi.markerIconString, { info with size := some mi.markerSize })]⟩ := by
  obtain ⟨s, hs⟩ := Option.isSome_iff_exists.mp hsz
  obtain ⟨u, hu⟩ := Option.isSome_iff_exists.mp hurl
  simp [Marker.CreateRoundedImageMarker, hdoc, hs, hu, hcb, hmi]

theorem scaledMarker_hit_eq (env : BrowserEnv) (cache : MarkerCache)
    (info : IMarkerIconInfo) (mi : IMarkerIconCacheEntry)
    (hdoc : env.docPresent = true)
    (hmi : cacheLookup cache info.id = some mi)
    (hsc : info.scale.isSome = true) (hurl : info.url.isSome = true)
    (hcb : info.callback = true) :
    Marker.CreateScaledImageMarker env cache info =
      ⟨.ok .emptyString, { info with size := some mi.markerSize }, cache, [],
        [(mi.markerIconString, { info with size := some mi.markerSize })]⟩ := by
  obtain ⟨s, hs⟩ := Option.isSome_iff_exists.mp hsc
  obtain ⟨u, hu⟩ := Option.isSome_iff_exists.mp hurl
  simp [Marker.CreateScaledImageMarker, hdoc, hs, hu, hcb, hmi]

/-- A cache whose entry at "x" is a non-empty icon string. -/
def cacheC1 : MarkerCache := [("x", ⟨.svgCircleString 4 0 "red", ⟨4, 4⟩⟩)]

/-- A rotated image marker request whose id is in cacheC1. -/
def infoC1 : IMarkerIconInfo :=
  { markerType := .RotatedImageMarker, id := some "x", rotation := some 90,
    url := some "u", callback := true }

/-- C1 counterexample: for a rotated image marker whose non-null id is in the
icon cache, CreateRotatedImageMarker (dispatched by Marker.CreateMarker) does
not return the cached image string: it returns the empty string (the cached
string is delivered through the callback instead). -/
theorem createRotatedImageMarker_hit_returns_empty :
    cacheGet cacheC1 "x" = some ⟨.svgCircleString 4 0 "red", ⟨4, 4⟩⟩ ∧
    (Marker.CreateMarker env0 cacheC1 infoC1).result = .ok .emptyString ∧
    IconString.emptyString ≠ IconString.svgCircleString 4 0 "red" := by
  exact ⟨rfl, rfl, by decide⟩

/-- C1 (amended): on a cache hit (non-null id present in the cache) no image
is regenerated — the cache is unchanged and no onload handler is installed —
and the cached string is delivered verbatim: returned as the value by the
canvas, dynamic circle and font based factories; passed to the callback (with
the empty string returned) by the rotated, rounded and scaled image
factories. -/
theorem createMarker_cache_hit_delivery (env : BrowserEnv) (cache : MarkerCache)
    (info : IMarkerIconInfo) (mi : IMarkerIconCacheEntry)
    (hdoc : env.docPresent = true)
    (hmi : cacheLookup cache info.id = some mi)
    (hreq : requiredOk info = true) :
    (Marker.CreateMarker env cache info).cacheAfter = cache ∧
    (Marker.CreateMarker env cache info).pendingNew = [] ∧
    ((info.markerType = .CanvasMarker ∨ info.markerType = .DynmaicCircleMarker ∨
        info.markerType = .FontMarker) →
      (Marker.CreateMarker env cache info).result = .ok mi.markerIconString ∧
      (Marker.CreateMarker env cache info).callbackCalls = []) ∧
    ((info.markerType = .RotatedImageMarker ∨ info.markerType = .RoundedImageMarker ∨
        info.markerType = .ScaledImageMarker) →
      (Marker.CreateMarker env cache info).result = .ok .emptyString ∧
      (Marker.CreateMarker env cache info).callbackCalls =
        [(mi.markerIconString, { info with size := some mi.markerSize })]) := by
  cases htype : info.markerType with
  | CanvasMarker =>
    simp only [requiredOk, htype, Bool.and_eq_true] at hreq
    simp only [Marker.CreateMarker, htype]
    rw [canvasMarker_hit_eq env cache info mi hdoc hmi hreq.1 hreq.2]
    simp [htype]
  | DynmaicCircleMarker =>
    simp only [requiredOk, htype] at hreq
    simp only [Marker.CreateMarker, htype]
    rw [circleMarker_hit_eq env cache info mi hdoc hmi hreq]
    simp [htype]
  | FontMarker =>
    simp only [requiredOk, htype, Bool.and_eq_true] at hreq
    simp only [Marker.CreateMarker, htype]
    rw [fontMarker_hit_eq env cache info mi hdoc hmi hreq.1 hreq.2]
    simp [htype]
  | RotatedImageMarker =>
    simp only [requiredOk, htype, Bool.and_eq_true] at hreq
    simp only [Marker.CreateMarker, htype]
    rw [rotatedMarker_hit_eq env cache info mi hdoc hmi hreq.1.1 hreq.1.2 hreq.2]
    simp [htype]
  | RoundedImageMarker =>
    simp only [requiredOk, htype, Bool.and_eq_true] at hreq
    simp only [Marker.CreateMarker, htype]
    rw [roundedMarker_hit_eq env cache info mi hdoc hmi hreq.1.1 hreq.1.2 hreq.2]
    simp [htype]
  | ScaledImageMarker =>
    simp only [requiredOk, htype, Bool.and_eq_true] at hreq
    simp only [Marker.CreateMarker, htype]
    rw [scaledMarker_hit_eq env cache info mi hdoc hmi hreq.1.1 hreq.1.2 hreq.2]
    simp [htype]
  | other code =>
    simp [requiredOk, htype] at hreq

/-- Core cache-hit fact shared by the frame theorems: on a hit, the iconInfo
size is overwritten with the cached markerSize, the delivered image is the
cached string, and the cache is untouched. -/
theorem createMarker_hit_core (env : BrowserEnv) (cache : MarkerCache)
    (info : IMarkerIconInfo) (mi : IMarkerIconCacheEntry)
    (hdoc : env.docPresent = true)
    (hmi : cacheLookup cache info.id = some mi)
    (hreq : requiredOk info = true) :
    (Marker.CreateMarker env cache info).infoAfter.size = some mi.markerSize ∧
    delivered (Marker.CreateMarker env cache info) = .ok mi.markerIconString ∧
    (Marker.CreateMarker env cache info).cacheAfter = cache := by
  cases htype : info.markerType with
  | CanvasMarker =>
    simp only [requiredOk, htype, Bool.and_eq_true] at hreq
    simp only [Marker.CreateMarker, htype]
    rw [canvasMarker_hit_eq env cache info mi hdoc hmi hreq.1 hreq.2]
    simp [delivered]
  | DynmaicCircleMarker =>
    simp only [requiredOk, htype] at hreq
    simp only [Marker.CreateMarker, htype]
    rw [circleMarker_hit_eq env cache info mi hdoc hmi hreq]
    simp [delivered]
  | FontMarker =>
    simp only [requiredOk, htype, Bool.and_eq_true] at hreq
    simp only [Marker.CreateMarker, htype]
    rw [fontMarker_hit_eq env cache info mi hdoc hmi hreq.1 hreq.2]
    simp [delivered]
  | RotatedImageMarker =>
    simp only [requiredOk, htype, Bool.and_eq_true] at hreq
    simp only [Marker.CreateMarker, htype]
    rw [rotatedMarker_hit_eq env cache info mi hdoc hmi hreq.1.1 hreq.1.2 hreq.2]
    simp [delivered]
  | RoundedImageMarker =>
    simp only [requiredOk, htype, Bool.and_eq_true] at hreq
    simp only [Marker.CreateMarker, htype]
    rw [roundedMarker_hit_eq env cache info mi hdoc hmi hreq.1.1 hreq.1.2 hreq.2]
    simp [delivered]
  | ScaledImageMarker =>
    simp only [requiredOk, htype, Bool.and_eq_true] at hreq
    simp only [Marker.CreateMarker, htype]
    rw [scaledMarker_hit_eq env cache info mi hdoc hmi hreq.1.1 hreq.1.2 hreq.2]
    simp [delivered]
  | other code =>
    simp [requiredOk, htype] at hreq

/-- C2: for any two valid requests sharing the same non-null cached id —
whatever their other fields, and even across marker types — each call
overwrites its iconInfo size with the cached markerSize, each delivers
exactly the cached image string, and neither touches the cache: the lookup is
keyed only by the id. -/
theorem createMarker_cache_keyed_only_by_id (env : BrowserEnv) (cache : MarkerCache)
    (k : String) (mi : IMarkerIconCacheEntry) (info1 info2 : IMarkerIconInfo)
    (hdoc : env.docPresent = true)
    (h1 : info1.id = some k) (h2 : info2.id = some k)
    (hmi : cacheGet cache k = some mi)
    (hr1 : requiredOk info1 = true) (hr2 : requiredOk info2 = true) :
    (Marker.CreateMarker env cache info1).infoAfter.size = some mi.markerSize ∧
    (Marker.CreateMarker env cache info2).infoAfter.size = some mi.markerSize ∧
    delivered (Marker.CreateMarker env cache info1) = .ok mi.markerIconString ∧
    delivered (Marker.CreateMarker env cache info2) = .ok mi.markerIconString ∧
    (Marker.CreateMarker env cache info1).cacheAfter = cache ∧
    (Marker.CreateMarker env cache info2).cacheAfter = cache := by
  have hl1 : cacheLookup cache info1.id = some mi := by rw [h1]; exact hmi
  have hl2 : cacheLookup cache info2.id = some mi := by rw [h2]; exact hmi
  have c1 := createMarker_hit_core env cache info1 mi hdoc hl1 hr1
  have c2 := createMarker_hit_core env cache info2 mi hdoc hl2 hr2
  exact ⟨c1.1, c2.1, c1.2.1, c2.2.1, c1.2.2, c2.2.2⟩

/-- The cache and entry used by the cache-hit witnesses. -/
def entryW : IMarkerIconCacheEntry := ⟨.svgCircleString 4 0 "red", ⟨4, 4⟩⟩

/-- A one-entry cache at id "x". -/
def cacheW : MarkerCache := [("x", entryW)]

/-- A canvas marker request hitting id "x" with unrelated fields supplied. -/
def infoW1 : IMarkerIconInfo :=
  { markerType := .CanvasMarker, id := some "x", size := some ⟨9, 9⟩,
    points := some [⟨1, 1⟩], color := some "blue" }

/-- A scaled image marker request hitting the same id "x". -/
def infoW2 : IMarkerIconInfo :=
  { markerType := .ScaledImageMarker, id := some "x", scale := some 2,
    url := some "u", callback := true }

/-- C1 witness: the amended cache-hit theorem applied at a concrete scaled
image marker request hitting a concrete cache. -/
theorem createMarker_cache_hit_delivery_witness :
    (Marker.CreateMarker env0 cacheW infoW2).result = .ok .emptyString ∧
    (Marker.CreateMarker env0 cacheW infoW2).callbackCalls =
      [(.svgCircleString 4 0 "red", { infoW2 with size := some (⟨4, 4⟩ : ISize) })] := by
  have h := createMarker_cache_hit_delivery env0 cacheW infoW2 entryW rfl (by decide) (by decide)
  exact (h.2.2.2 (Or.inr (Or.inr rfl)))

/-- C2 witness: the keyed-only-by-id theorem applied at two concrete requests
of different marker types hitting the same concrete cache entry. -/
theorem createMarker_cache_keyed_only_by_id_witness :
    (Marker.CreateMarker env0 cacheW infoW1).infoAfter.size = some (⟨4, 4⟩ : ISize) ∧
    delivered (Marker.CreateMarker env0 cacheW infoW1) = .ok (.svgCircleString 4 0 "red") ∧
    delivered (Marker.CreateMarker env0 cacheW infoW2) = .ok (.svgCircleString 4 0 "red") := by
  have h := createMarker_cache_keyed_only_by_id env0 cacheW "x" entryW infoW1 infoW2
    rfl rfl rfl (by decide) (by decide) (by decide)
  exact ⟨h.1, h.2.2.1, h.2.2.2.1⟩

/-! Cache shape and monotonicity lemmas. -/

theorem cacheHas_cacheSet (c : MarkerCache) (k' : String) (v : IMarkerIconCacheEntry)
    (k : String) (h : cacheHas c k = true) : cacheHas (cacheSet c k' v) k = true := by
  unfold cacheSet
  split
  · simp only [cacheHas, List.any_eq_true, decide_eq_true_eq] at h ⊢
    obtain ⟨e, he, hek⟩ := h
    refine ⟨if e.1 = k' then (k', v) else e, List.mem_map_of_mem _ he, ?_⟩
    split
    next heq => exact heq.symm.trans hek
    next => exact hek
  · simp only [cacheHas, List.any_append, Bool.or_eq_true]
    left
    simpa [cacheHas] using h

theorem cacheHas_cacheStore (c : MarkerCache) (id : Option String)
    (v : IMarkerIconCacheEntry) (k : String) (h : cacheHas c k = true) :
    cacheHas (cacheStore c id v) k = true := by
  cases id with
  | none => exact h
  | some k' => exact cacheHas_cacheSet c k' v k h

theorem createMarker_cacheAfter_shape (env : BrowserEnv) (c : MarkerCache)
    (info : IMarkerIconInfo) :
    (Marker.CreateMarker env c info).cacheAfter = c ∨
    ∃ v, (Marker.CreateMarker env c info).cacheAfter = cacheStore c info.id v := by
  cases htype : info.markerType <;> simp only [Marker.CreateMarker, htype]
  case CanvasMarker =>
    unfold Marker.CreateCanvasMarker
    repeat' split
    all_goals first | exact Or.inl rfl | exact Or.inr ⟨_, rfl⟩
  case DynmaicCircleMarker =>
    unfold Marker.CreateDynmaicCircleMarker
    repeat' split
    all_goals first | exact Or.inl rfl | exact Or.inr ⟨_, rfl⟩
  case FontMarker =>
    unfold Marker.CreateFontBasedMarker
    repeat' split
    all_goals first | exact Or.inl rfl | exact Or.inr ⟨_, rfl⟩
  case RotatedImageMarker =>
    unfold Marker.CreateRotatedImageMarker
    repeat' split
    all_goals exact Or.inl rfl
  case RoundedImageMarker =>
    unfold Marker.CreateRoundedImageMarker
    repeat' split
    all_goals exact Or.inl rfl
  case ScaledImageMarker =>
    unfold Marker.CreateScaledImageMarker
    repeat' split
    all_goals exact Or.inl rfl
  case other => exact Or.inl rfl

theorem createMarker_pendingNew_shape (env : BrowserEnv) (c : MarkerCache)
    (info : IMarkerIconInfo) :
    (Marker.CreateMarker env c info).pendingNew = [] ∨
    ∃ kind, (Marker.CreateMarker env c info).pendingNew = [⟨kind, info⟩] := by
  cases htype : info.markerType <;> simp only [Marker.CreateMarker, htype]
  case CanvasMarker =>
    unfold Marker.CreateCanvasMarker
    repeat' split
    all_goals exact Or.inl rfl
  case DynmaicCircleMarker =>
    unfold Marker.CreateDynmaicCircleMarker
    repeat' split
    all_goals exact Or.inl rfl
  case FontMarker =>
    unfold Marker.CreateFontBasedMarker
    repeat' split
    all_goals exact Or.inl rfl
  case RotatedImageMarker =>
    unfold Marker.CreateRotatedImageMarker
    repeat' split
    all_goals first | exact Or.inl rfl | exact Or.inr ⟨_, rfl⟩
  case RoundedImageMarker =>
    unfold Marker.CreateRoundedImageMarker
    repeat' split
    all_goals first | exact Or.inl rfl | exact Or.inr ⟨_, rfl⟩
  case ScaledImageMarker =>
    unfold Marker.CreateScaledImageMarker
    repeat' split
    all_goals first | exact Or.inl rfl | exact Or.inr ⟨_, rfl⟩
  case other => exact Or.inl rfl

theorem runOnload_cache_shape (env : BrowserEnv) (c : MarkerCache) (p : PendingLoad) :
    ∃ v, (runOnload env c p).1 = cacheStore c p.info.id v := by
  cases hk : p.kind <;> simp only [runOnload, hk] <;> exact ⟨_, rfl⟩

theorem createMarker_cache_mono (env : BrowserEnv) (c : MarkerCache)
    (info : IMarkerIconInfo) (k : String) (h : cacheHas c k = true) :
    cacheHas (Marker.CreateMarker env c info).cacheAfter k = true := by
  rcases createMarker_cacheAfter_shape env c info with he | ⟨v, he⟩
  · rw [he]; exact h
  · rw [he]; exact cacheHas_cacheStore c info.id v k h

theorem markerStep_cache_mono (env : BrowserEnv) (st : MarkerState) (op : MarkerOp)
    (k : String) (h : cacheHas st.cache k = true) :
    cacheHas (markerStep env st op).cache k = true := by
  cases op with
  | create info => exact createMarker_cache_mono env st.cache info k h
  | fireLoad i =>
    simp only [markerStep]
    cases hi : st.pending[i]? with
    | none => exact h
    | some p =>
      obtain ⟨v, hv⟩ := runOnload_cache_shape env st.cache p
      simpa [hv] using cacheHas_cacheStore st.cache p.info.id v k h

/-- C3 (amended): across any event sequence — Marker.CreateMarker calls and
onload firings — no cache entry is ever removed: the set of cached ids grows
monotonically, with no eviction, TTL or size bound. (The value at an id is
not stable, see the replacement counterexample below.) -/
theorem markerCache_ids_monotone (env : BrowserEnv) (st : MarkerState)
    (ops : List MarkerOp) (k : String) (h : cacheHas st.cache k = true) :
    cacheHas (markerRun env st ops).cache k = true := by
  induction ops generalizing st with
  | nil => exact h
  | cons op ops ih => exact ih (markerStep env st op) (markerStep_cache_mono env st op k h)

/-- A rotated image marker request for id "x": the cache store for it happens
only when its image load event fires. -/
def infoRotX : IMarkerIconInfo :=
  { markerType := .RotatedImageMarker, id := some "x", rotation := some 90,
    url := some "u", callback := true }

/-- A canvas marker request for the same id "x": its cache store is
synchronous. -/
def infoCanX : IMarkerIconInfo :=
  { markerType := .CanvasMarker, id := some "x", size := some ⟨2, 2⟩,
    points := some [⟨0, 0⟩] }

/-- The entry the canvas call stores at "x". -/
def entryCanX : IMarkerIconCacheEntry :=
  ⟨.canvasDataURL 2 2 none "red" none [⟨0, 0⟩], ⟨2, 2⟩⟩

/-- The entry the deferred rotated-image onload handler stores at "x". -/
def entryRotX : IMarkerIconCacheEntry :=
  ⟨.rotatedDataURL "u" 10 10 90, ⟨10, 10⟩⟩

/-- C3 counterexample: an entry does not always stay with its original value.
A rotated image call for id "x" misses and defers its store to its onload
handler; a canvas call then caches "x"; when the handler fires it sets "x"
unconditionally, replacing the canvas entry with the rotated-image entry. -/
theorem markerCache_entry_replaced_by_deferred_onload :
    cacheGet (markerRun env0 ⟨[], []⟩ [.create infoRotX, .create infoCanX]).cache "x" =
      some entryCanX ∧
    cacheGet (markerRun env0 ⟨[], []⟩
        [.create infoRotX, .create infoCanX, .fireLoad 0]).cache "x" = some entryRotX ∧
    entryCanX ≠ entryRotX := by
  exact ⟨rfl, rfl, by decide⟩

/-- C3 witness: the monotonicity theorem applied at a concrete state holding
id "x" and a concrete call. -/
theorem markerCache_ids_monotone_witness :
    cacheHas (markerRun env0 ⟨[("x", entryW)], []⟩ [.create infoCanX]).cache "x" = true := by
  exact markerCache_ids_monotone env0 ⟨[("x", entryW)], []⟩ [.create infoCanX] "x" (by decide)

/-- C7: a call whose iconInfo.id is null leaves the icon cache completely
unchanged — synchronously, and also when its deferred onload handlers fire
(every handler installed by null-id calls carries a null id) — and the image
is regenerated from the supplied fields on every such call (shown in the
explicit constructor form of the generated image for the canvas and dynamic
circle factories). -/
theorem createMarker_null_id_cache_untouched (env : BrowserEnv) (st : MarkerState)
    (info : IMarkerIconInfo) (i : Nat)
    (hid : info.id = none)
    (hp : ∀ p ∈ st.pending, p.info.id = none) :
    (markerStep env st (.create info)).cache = st.cache ∧
    (∀ p ∈ (markerStep env st (.create info)).pending, p.info.id = none) ∧
    (markerStep env st (.fireLoad i)).cache = st.cache ∧
    (info.markerType = .CanvasMarker → env.docPresent = true →
      ∀ sz pts, info.size = some sz → info.points = some pts →
      (Marker.CreateMarker env st.cache info).result =
        .ok (.canvasDataURL sz.width sz.height (effRotation info.rotation)
          (jsOrString info.color "red") info.drawingOffset pts)) ∧
    (info.markerType = .DynmaicCircleMarker → env.docPresent = true →
      ∀ sz, info.size = some sz →
      (Marker.CreateMarker env st.cache info).result =
        .ok (.svgCircleString sz.width (jsOrNum info.strokeWidth 0)
          (jsOrString info.color "red"))) := by
  refine ⟨?_, ?_, ?_, ?_, ?_⟩
  · show (Marker.CreateMarker env st.cache info).cacheAfter = st.cache
    rcases createMarker_cacheAfter_shape env st.cache info with he | ⟨v, he⟩
    · exact he
    · rw [he, hid]; rfl
  · intro p hpm
    simp only [markerStep] at hpm
    rcases List.mem_append.mp hpm with hl | hr
    · exact hp p hl
    · rcases createMarker_pendingNew_shape env st.cache info with hn | ⟨kind, hn⟩
      · rw [hn] at hr; cases hr
      · rw [hn] at hr
        rcases List.mem_singleton.mp hr with rfl
        exact hid
  · simp only [markerStep]
    cases hi : st.pending[i]? with
    | none => rfl
    | some p =>
      obtain ⟨v, hv⟩ := runOnload_cache_shape env st.cache p
      have hpid : p.info.id = none := hp p (List.getElem?_mem hi)
      simp [hv, hpid, cacheStore]
  · intro ht hdoc sz pts hsz hpts
    simp [Marker.CreateMarker, ht, Marker.CreateCanvasMarker, hdoc, hsz, hpts, hid,
      cacheLookup]
  · intro ht hdoc sz hsz
    simp [Marker.CreateMarker, ht, Marker.CreateDynmaicCircleMarker, hdoc, hsz, hid,
      cacheLookup]

/-- A canvas marker request with no id. -/
def infoNoId : IMarkerIconInfo :=
  { markerType := .CanvasMarker, size := some ⟨2, 2⟩, points := some [⟨0, 0⟩] }

/-- C7 witness: the null-id frame theorem applied at a concrete non-empty
cache and a concrete id-less canvas request. -/
theorem createMarker_null_id_cache_untouched_witness :
    (markerStep env0 ⟨[("x", entryW)], []⟩ (.create infoNoId)).cache = [("x", entryW)] ∧
    (Marker.CreateMarker env0 [("x", entryW)] infoNoId).result =
      .ok (.canvasDataURL 2 2 none "red" none [⟨0, 0⟩]) := by
  have h := createMarker_null_id_cache_untouched env0 ⟨[("x", entryW)], []⟩ infoNoId 0 rfl
    (by intro p hpm; cases hpm)
  exact ⟨h.1, h.2.2.2.1 rfl rfl ⟨2, 2⟩ [⟨0, 0⟩] rfl rfl⟩

/-! Round-trip facts about the JS integer and string conversions. -/

theorem digitChar_isDigit (d : Nat) (hd : d < 10) : (digitChar d).isDigit = true := by
  interval_cases d <;> decide

theorem charDigit_digitChar (d : Nat) (hd : d < 10) : charDigit (digitChar d) = d := by
  interval_cases d <;> decide

theorem natChars_all_digits (n : Nat) : (natChars n).all Char.isDigit = true := by
  unfold natChars
  split
  · decide
  · simp only [List.all_eq_true, List.mem_reverse, List.mem_map]
    rintro c ⟨d, hd, rfl⟩
    exact digitChar_isDigit d (Nat.digits_lt_base (by norm_num) hd)

theorem natChars_ne_nil (n : Nat) : natChars n ≠ [] := by
  unfold natChars
  split
  · simp
  next h =>
    simp only [ne_eq, List.reverse_eq_nil_iff, List.map_eq_nil_iff]
    exact Nat.digits_ne_nil_iff_ne_zero.mpr h

theorem natOfChars_natChars (n : Nat) : natOfChars (natChars n) = n := by
  unfold natChars
  split
  next h => subst h; decide
  next h =>
    unfold natOfChars
    rw [List.map_reverse, List.reverse_reverse, List.map_map]
    have hmape : (Nat.digits 10 n).map (charDigit ∘ digitChar) = (Nat.digits 10 n).map id :=
      List.map_congr_left (fun d hd => by
        simpa using charDigit_digitChar d (Nat.digits_lt_base (by norm_num) hd))
    rw [hmape, List.map_id, Nat.ofDigits_digits]

theorem jsStringToNumber_jsIntToString (n : Int) :
    jsStringToNumber (jsIntToString n) = some n := by
  unfold jsIntToString
  split
  next hn =>
    show jsCharsToNumber ('-' :: natChars n.natAbs) = some n
    simp only [jsCharsToNumber]
    rw [if_pos trivial, if_pos ⟨natChars_ne_nil _, natChars_all_digits _⟩, natOfChars_natChars]
    congr 1
    omega
  next hn =>
    show jsCharsToNumber (natChars n.toNat) = some n
    cases hnc : natChars n.toNat with
    | nil => exact absurd hnc (natChars_ne_nil _)
    | cons c rest =>
      have hall : (c :: rest).all Char.isDigit = true := hnc ▸ natChars_all_digits n.toNat
      have hc : c.isDigit = true :=
        List.all_eq_true.mp hall c (List.mem_cons_self c rest)
      have hcd : ¬ c = '-' := by
        intro hceq
        rw [hceq] at hc
        exact absurd hc (by decide)
      simp only [jsCharsToNumber]
      rw [if_neg hcd, if_pos hall, ← hnc, natOfChars_natChars]
      congr 1
      omega

/-- C6: BingLayer option translation round-trips on the id: after
SetOptions with numeric id n the native layer id is the string form of n,
and GetOptions recovers n (Number applied to toString of an integer). -/
theorem bingLayer_id_roundtrip (n : Int) (l : BingLayer.NativeLayer) :
    (BingLayer.SetOptions l ⟨n⟩).id = jsIntToString n ∧
    BingLayer.GetOptions (BingLayer.SetOptions l ⟨n⟩) = ⟨some n⟩ := by
  constructor
  · rfl
  · show (⟨jsStringToNumber (jsIntToString n)⟩ : BingLayer.ILayerOptionsRead) = ⟨some n⟩
    rw [jsStringToNumber_jsIntToString]

/-- C9: the service keeps at most one live map instance. DisposeMap with no
live instance leaves the state unchanged (idempotent); with a live instance
it disposes it, nulls the stored instance and replaces the map promise with a
fresh unresolved one (fresh in the sense that, for a well-formed state, it
differs from the promise it replaces); and the CreateMap continuation
disposes any existing instance before storing the newly created one. -/
theorem bingMapService_single_instance (st : BingMapService.ServiceState) :
    (st.mapInstance = none → BingMapService.DisposeMap st = st) ∧
    (∀ h, st.mapInstance = some h →
      (BingMapService.DisposeMap st).mapInstance = none ∧
      h ∈ (BingMapService.DisposeMap st).disposed ∧
      (BingMapService.DisposeMap st).map = some ⟨st.nextPromiseId, none⟩ ∧
      (BingMapService.serviceWF st → (BingMapService.DisposeMap st).map ≠ st.map)) ∧
    (∀ h, st.mapInstance = some h → h ∈ (BingMapService.CreateMapBody st).disposed) ∧
    (BingMapService.CreateMapBody st).mapInstance.isSome = true := by
  refine ⟨?_, ?_, ?_, ?_⟩
  · intro hi
    unfold BingMapService.DisposeMap
    split
    · rfl
    · rw [hi]
  · intro h hi
    have hd : BingMapService.DisposeMap st =
        { st with
          mapInstance := none,
          map := some ⟨st.nextPromiseId, none⟩,
          nextPromiseId := st.nextPromiseId + 1,
          disposed := st.disposed ++ [h] } := by
      unfold BingMapService.DisposeMap
      split
      next hc => rw [hc.2] at hi; cases hi
      next => rw [hi]
    refine ⟨by rw [hd], by rw [hd]; simp, by rw [hd], ?_⟩
    intro hwf heq
    rw [hd] at heq
    cases hm : st.map with
    | none => rw [hm] at heq; cases heq
    | some p =>
      rw [hm] at heq
      have : st.nextPromiseId = p.pid := by
        have := congrArg (fun o => (o.getD ⟨0, none⟩).pid) heq
        simpa using this
      have hlt := hwf p hm
      omega
  · intro h hi
    unfold BingMapService.CreateMapBody
    rw [hi]
    simp only [ne_eq, reduceCtorEq, not_false_eq_true, if_pos]
    have hd : (BingMapService.DisposeMap st).disposed = st.disposed ++ [h] := by
      unfold BingMapService.DisposeMap
      split
      next hc => rw [hc.2] at hi; cases hi
      next => rw [hi]
    simp [hd]
  · unfold BingMapService.CreateMapBody
    split <;> rfl

/-- A concrete service state with a live map instance 5: one resolved promise
allocated, one pending dispose. -/
def svcLive : BingMapService.ServiceState := ⟨some ⟨0, some 5⟩, some 5, 1, 6, []⟩

/-- C9 witness: the lifecycle theorem applied to a concrete live state (and,
for idempotence, to the state DisposeMap produces from it). -/
theorem bingMapService_single_instance_witness :
    (BingMapService.DisposeMap svcLive).mapInstance = none ∧
    5 ∈ (BingMapService.DisposeMap svcLive).disposed ∧
    (BingMapService.DisposeMap svcLive).map ≠ svcLive.map ∧
    BingMapService.DisposeMap (BingMapService.DisposeMap svcLive) =
      BingMapService.DisposeMap svcLive := by
  have h := bingMapService_single_instance svcLive
  have h2 := (h.2.1 5 rfl)
  refine ⟨h2.1, h2.2.1, h2.2.2.2 ?_, ?_⟩
  · intro p hp
    cases hp
    decide
  · have h3 := bingMapService_single_instance (BingMapService.DisposeMap svcLive)
    exact h3.1 h2.1

/-- C10: when the translated pushpin options carry no icon, the CreateMarker
continuation renders the default 48x48 red (color "#f00") canvas arrow with
rotation 45 via Marker.CreateMarker, sets the anchor to
(width x 0.75, height x 0.25) = (36, 12) and the text offset to
(0, height x 0.66) = (0, 31.68); and because the default iconInfo carries no
id, the icon cache is left unchanged, so the icon is regenerated by each such
call rather than memoized. -/
theorem bingMapService_default_icon (env : BrowserEnv) (cache : MarkerCache)
    (o : IPushpinOptions) (hdoc : env.docPresent = true) (ho : o.icon = none) :
    CreateMarkerBody env cache o = .ok ({ o with
      icon := some (.canvasDataURL 48 48 (some 45) "#f00" (some ⟨24, 0⟩)
        [⟨10, 40⟩, ⟨24, 30⟩, ⟨38, 40⟩, ⟨24, 0⟩]),
      anchor := some ⟨36, 12⟩,
      textOffset := some ⟨0, 31.68⟩ }, cache) := by
  simp only [CreateMarkerBody, ho, if_pos]
  simp only [Marker.CreateMarker, Marker.CreateCanvasMarker, hdoc, Bool.true_eq_false,
    if_false, cacheLookup, cacheStore, effRotation, jsTruthyNum, jsOrString]
  norm_num
  exact fun h => absurd h (by decide)

/-- C10 witness: the default-icon theorem applied at a concrete environment,
cache and icon-less pushpin options. -/
theorem bingMapService_default_icon_witness :
    CreateMarkerBody env0 [("x", entryW)] ⟨none, none, none⟩ = .ok (⟨
      some (.canvasDataURL 48 48 (some 45) "#f00" (some ⟨24, 0⟩)
        [⟨10, 40⟩, ⟨24, 30⟩, ⟨38, 40⟩, ⟨24, 0⟩]),
      some ⟨36, 12⟩,
      some ⟨0, 31.68⟩⟩, [("x", entryW)]) := by
  exact bingMapService_default_icon env0 [("x", entryW)] ⟨none, none, none⟩ rfl rfl
